import Mathlib

/-!
# Shallow embedding of the food-recipe-bot message layer

This file embeds the message-normalization, recipe-formatting and
webhook-verification logic of the repository:

* `backend/utils/helpers.py` (`sanitize_input`),
* `backend/integrations/whatsapp_api_working_with_payment.py`
  (`verify_whatsapp_webhook`, `parse_whatsapp_message`,
  `format_recipe_for_whatsapp`),
* `backend/integrations/telegram_bot.py`
  (`parse_telegram_message`, `format_recipe_for_telegram`),

and proves properties of the embedded functions.

Python strings are modelled as `List Char`.  `str.lower`, `str.strip` and
the whitespace set are modelled on their ASCII behaviour, which covers
every string that the verified properties mention.  Webhook payloads
decoded from JSON are modelled by the inductive `PyVal`; Python
operations that can raise are modelled in `Except PyErr`, and the
`try/except` wrappers of the source become total functions returning
`Option`.  JSON numbers are modelled as integers; no verified property
depends on fractional payload values.
-/

namespace RecipeBot

/-- Convert a Lean string literal to the `List Char` representation used
throughout the development. -/
def toC (s : String) : List Char := s.toList

/-- The whitespace characters removed by Python `str.strip()` (ASCII part):
space, tab, newline, carriage return, vertical tab, form feed. -/
def pySpace (c : Char) : Bool :=
  c == ' ' || c == '\t' || c == '\n' || c == '\r' || c == '\x0b' || c == '\x0c'

/-- Python `str.strip()`: drop leading and trailing whitespace. -/
def pyStrip (l : List Char) : List Char :=
  ((l.dropWhile pySpace).reverse.dropWhile pySpace).reverse

/-- The characters removed by `sanitize_input` in `backend/utils/helpers.py`:
the regex class matches every occurrence of the seven characters
angle brackets, braces, square brackets and backslash. -/
def harmful (c : Char) : Bool :=
  c == '<' || c == '>' || c == '\x7b' || c == '\x7d' || c == '[' || c == ']' || c == '\\'

/-- `backend/utils/helpers.py`, `sanitize_input` (lines 9-20): falsy (empty)
input short-circuits to the empty string; otherwise `re.sub` removes every
harmful character from `text.strip()` and the result is truncated to 500
characters. -/
def sanitize_input (l : List Char) : List Char :=
  if l = [] then []
  else ((pyStrip l).filter (fun c => !harmful c)).take 500

/-- Python `str.split(sep)` for a one-character separator: always returns a
non-empty list of (possibly empty) fragments. -/
def pySplit (sep : Char) : List Char → List (List Char)
  | [] => [[]]
  | c :: t =>
    match pySplit sep t with
    | [] => [[]]
    | h :: r => if c == sep then [] :: h :: r else (c :: h) :: r

/-- Python `hay.startswith(needle)`: `needle` is a leading block of `hay`
(arguments: needle first). -/
def pyStarts : List Char → List Char → Bool
  | [], _ => true
  | _ :: _, [] => false
  | a :: as, b :: bs => a == b && pyStarts as bs

/-- Python `needle in hay`: substring containment. -/
def pyIn (needle : List Char) : List Char → Bool
  | [] => pyStarts needle []
  | c :: t => pyStarts needle (c :: t) || pyIn needle t

/-- Decimal value of a list of digit characters. -/
def digitsVal (l : List Char) : Nat :=
  l.foldl (fun a c => 10 * a + (c.toNat - 48)) 0

/-- The Python idiom `re.search` for one-or-more digits followed by
`int(match.group(1))`: the decimal value of the first maximal run of
digits in the string, or `none` when the string has no digit. -/
def firstDigitRun : List Char → Option Nat
  | [] => none
  | c :: t =>
    if c.isDigit then some (digitsVal (c :: t.takeWhile Char.isDigit))
    else firstDigitRun t

/-- Digit tail of a Python integer literal: digits, possibly in groups
separated by single underscores (PEP 515); `acc` is the value read so far. -/
def pyIntDigits (acc : Nat) : List Char → Option Nat
  | [] => some acc
  | c :: t =>
    if c.isDigit then pyIntDigits (10 * acc + (c.toNat - 48)) t
    else if c == '_' then
      match t with
      | d :: t2 => if d.isDigit then pyIntDigits (10 * acc + (d.toNat - 48)) t2 else none
      | [] => none
    else none

/-- Python `int(s)` on an already-stripped ASCII string: an optional sign
followed by a digit sequence; any other shape raises `ValueError`,
modelled as `none`. -/
def pyToInt (l : List Char) : Option Int :=
  match l with
  | '+' :: t =>
    match t with
    | d :: t2 => if d.isDigit then (pyIntDigits (d.toNat - 48) t2).map Int.ofNat else none
    | [] => none
  | '-' :: t =>
    match t with
    | d :: t2 => if d.isDigit then (pyIntDigits (d.toNat - 48) t2).map (fun n => -(n : Int)) else none
    | [] => none
  | d :: t2 => if d.isDigit then (pyIntDigits (d.toNat - 48) t2).map Int.ofNat else none
  | [] => none

/-! ### JSON payloads and the Python operations the normalizers apply to them -/

/-- JSON values as produced by `request.json()`: the payload universe the
normalizers operate on.  Numbers are modelled as integers; object keys
keep insertion order and are assumed deduplicated, as `json.loads` leaves
one binding per key. -/
inductive PyVal where
  | null
  | bool (b : Bool)
  | num (n : Int)
  | str (s : List Char)
  | arr (l : List PyVal)
  | obj (l : List (List Char × PyVal))

/-- The Python exceptions the embedded operations can raise. -/
inductive PyErr where
  | attributeError
  | typeError
  | keyError
  | indexError

/-- Lookup in a JSON object (first binding of the key). -/
def objLookup (k : List Char) : List (List Char × PyVal) → Option PyVal
  | [] => none
  | (k2, v) :: t => if k2 == k then some v else objLookup k t

/-- Python `v.get(key, default)`: `AttributeError` unless `v` is a dict. -/
def pyGet (v : PyVal) (k : List Char) (d : PyVal) : Except PyErr PyVal :=
  match v with
  | .obj kvs => .ok ((objLookup k kvs).getD d)
  | _ => .error .attributeError

/-- Python truthiness of a JSON value. -/
def pyTruthy : PyVal → Bool
  | .null => false
  | .bool b => b
  | .num n => n != 0
  | .str s => !s.isEmpty
  | .arr l => !l.isEmpty
  | .obj l => !l.isEmpty

/-- Python `v[0]`, as applied to the `messages` value. -/
def pyFirst : PyVal → Except PyErr PyVal
  | .arr (x :: _) => .ok x
  | .arr [] => .error .indexError
  | .str (c :: _) => .ok (.str [c])
  | .str [] => .error .indexError
  | .obj _ => .error .keyError
  | _ => .error .typeError

/-- Python `v == "lit"` against a string literal: no exception,
non-strings simply compare unequal. -/
def pyEqStr (v : PyVal) (lit : List Char) : Bool :=
  match v with
  | .str s => s == lit
  | _ => false

/-- Python iteration `for x in v`: lists yield their elements, dicts their
keys, strings their characters (as one-character strings); other JSON
values raise `TypeError`. -/
def pyElems : PyVal → Except PyErr (List PyVal)
  | .arr l => .ok l
  | .obj kvs => .ok (kvs.map (fun kv => .str kv.1))
  | .str s => .ok (s.map (fun c => .str [c]))
  | _ => .error .typeError

/-- Python `key in v` membership: key lookup for dicts, element equality
for lists, substring test for strings, `TypeError` otherwise. -/
def pyHasKey (v : PyVal) (k : List Char) : Except PyErr Bool :=
  match v with
  | .obj kvs => .ok (kvs.any (fun kv => kv.1 == k))
  | .arr l => .ok (l.any (fun x => pyEqStr x k))
  | .str s => .ok (pyIn k s)
  | _ => .error .typeError

/-- Python `v[key]` subscription with a string key. -/
def pyIndexS (v : PyVal) (k : List Char) : Except PyErr PyVal :=
  match v with
  | .obj kvs =>
    match objLookup k kvs with
    | some x => .ok x
    | none => .error .keyError
  | _ => .error .typeError

/-- Python `v.strip()`: `AttributeError` unless `v` is a string. -/
def pyStripV : PyVal → Except PyErr (List Char)
  | .str s => .ok (pyStrip s)
  | _ => .error .attributeError

/-! ### The WhatsApp normalizer
(`whatsapp_api_working_with_payment.py`, lines 142-247) -/

/-- The dictionaries returned by `parse_whatsapp_message`, one constructor
per `"type"` tag; each carries `from_number` (an arbitrary JSON value,
exactly as the source forwards it). -/
inductive ParsedWa where
  | buttonInteraction (fromNumber buttonId : PyVal)
  | listInteraction (fromNumber listId : PyVal)
  | unsupported (fromNumber : PyVal)
  | empty (fromNumber : PyVal)
  | paymentRequest (fromNumber : PyVal)
  | paymentStatus (fromNumber : PyVal)
  | paymentConfirmation (fromNumber : PyVal)
  | accountInfo (fromNumber : PyVal)
  | start (fromNumber : PyVal)
  | help (fromNumber : PyVal)
  | moreOptions (fromNumber : PyVal)
  | thankYou (fromNumber : PyVal)
  | goodbye (fromNumber : PyVal)
  | howAreYou (fromNumber : PyVal)
  | capabilities (fromNumber : PyVal)
  | noIngredients (fromNumber : PyVal)
  | recipeRequest (fromNumber : PyVal) (ingredients : List (List Char))
      (cuisine : Option (List Char)) (dietaryRestrictions : List (List Char))
      (cookingTime : Option Nat) (originalText : List Char)

/-- Keyword set of the `payment_request` branch (line 193). -/
def payKws : List (List Char) :=
  [toC "pay", toC "payment", toC "premium", toC "upgrade", toC "subscribe", toC "buy"]

/-- Keyword set of the `payment_status` branch (line 195). -/
def payStatusKws : List (List Char) :=
  [toC "payment status", toC "status of payment", toC "payment info", toC "my payments"]

/-- Keyword set of the `payment_confirmation` branch (line 197). -/
def payConfirmKws : List (List Char) :=
  [toC "confirm payment", toC "paid", toC "payment done", toC "i paid"]

/-- Keyword set of the `account_info` branch (line 199). -/
def accountKws : List (List Char) :=
  [toC "my account", toC "account info", toC "premium status"]

/-- Keyword set of the `start` branch (line 203). -/
def startKws : List (List Char) :=
  [toC "start", toC "hello", toC "hi", toC "hey", toC "good morning", toC "good evening"]

/-- Keyword set of the `help` branch (line 205). -/
def helpKws : List (List Char) :=
  [toC "help", toC "support", toC "assistance", toC "issue", toC "complaint"]

/-- Keyword set of the `more_options` branch (line 207). -/
def moreKws : List (List Char) := [toC "more"]

/-- Keyword set of the `thank_you` branch (line 209). -/
def thankKws : List (List Char) :=
  [toC "thank", toC "thanks", toC "appreciate", toC "grateful"]

/-- Keyword set of the `goodbye` branch (line 211). -/
def byeKws : List (List Char) :=
  [toC "bye", toC "goodbye", toC "see you", toC "farewell"]

/-- Keyword set of the `how_are_you` branch (line 213). -/
def howKws : List (List Char) :=
  [toC "how are you", toC "how do you do", toC "how\x27s it going"]

/-- Keyword set of the `capabilities` branch (line 215). -/
def capKws : List (List Char) :=
  [toC "what can you do", toC "capabilities", toC "features"]

/-- `any(word in body_lower for word in kws)`. -/
def anyIn (kws : List (List Char)) (bodyLower : List Char) : Bool :=
  kws.any (fun w => pyIn w bodyLower)

/-- Lines 192-216: the keyword-classification chain over the lower-cased
body.  The source writes two consecutive if/elif chains, but every branch
returns, so they behave as the single chain embedded here; `none` means
that control reaches the tokenizer at line 218. -/
def waKeywordIntent (fromNumber : PyVal) (bl : List Char) : Option ParsedWa :=
  if anyIn payKws bl then some (.paymentRequest fromNumber)
  else if anyIn payStatusKws bl then some (.paymentStatus fromNumber)
  else if anyIn payConfirmKws bl then some (.paymentConfirmation fromNumber)
  else if anyIn accountKws bl then some (.accountInfo fromNumber)
  else if anyIn startKws bl then some (.start fromNumber)
  else if anyIn helpKws bl then some (.help fromNumber)
  else if anyIn moreKws bl then some (.moreOptions fromNumber)
  else if anyIn thankKws bl then some (.thankYou fromNumber)
  else if anyIn byeKws bl then some (.goodbye fromNumber)
  else if anyIn howKws bl then some (.howAreYou fromNumber)
  else if anyIn capKws bl then some (.capabilities fromNumber)
  else none

/-- Lines 228-232: strip the fourth segment, then take the first embedded
digit run (`re.search` of one-or-more digits). -/
def waCookingTime (seg : List Char) : Option Nat :=
  if pyStrip seg = [] then none else firstDigitRun (pyStrip seg)

/-- Lines 218-242: tokenization of a free-text body into ingredients,
cuisine, dietary restrictions and cooking time.  `parts.getD i []`
returns the empty segment when index `i` is absent, and a blank segment
takes the same branch as an absent one, exactly like the
`len(parts) > i and parts[i].strip()` guards of the source.  Note that
the restrictions comprehension at line 225 has no blank-token filter. -/
def waTokenize (fromNumber : PyVal) (bodyText : List Char) : ParsedWa :=
  let parts := pySplit '|' bodyText
  let ingredients :=
    ((pySplit ',' (parts.getD 0 [])).filter (fun i => !(pyStrip i).isEmpty)).map
      (fun i => sanitize_input (pyStrip i))
  if ingredients.isEmpty then .noIngredients fromNumber
  else
    let cuisine :=
      if (pyStrip (parts.getD 1 [])).isEmpty then none
      else some (sanitize_input (pyStrip (parts.getD 1 [])))
    let restrictions :=
      if (pyStrip (parts.getD 2 [])).isEmpty then ([] : List (List Char))
      else (pySplit ',' (parts.getD 2 [])).map (fun r => sanitize_input (pyStrip r))
    .recipeRequest fromNumber ingredients cuisine restrictions
      (waCookingTime (parts.getD 3 [])) bodyText

/-- The text branch of `parse_whatsapp_message` (lines 189-242): keyword
classification of the lower-cased body first, tokenization of the
original body otherwise. -/
def waClassifyText (fromNumber : PyVal) (bodyText : List Char) : ParsedWa :=
  match waKeywordIntent fromNumber (bodyText.map Char.toLower) with
  | some r => r
  | none => waTokenize fromNumber bodyText

/-- The body of the inner `for change in changes` loop (lines 148-242):
`some` models a `return`, `none` a `continue`.  The source reads
`message.get("interactive", Map.empty)` afresh for the reply id; `pyGet` is
deterministic, so the first read is reused.  An `interactive` message with
an unknown subtype falls through to the `message_type` test and, not
being `"text"`, returns the `unsupported` dictionary. -/
def waProcessChange (change : PyVal) : Except PyErr (Option ParsedWa) := do
  let value ← pyGet change (toC "value") (.obj [])
  let messages ← pyGet value (toC "messages") (.arr [])
  if !pyTruthy messages then return none
  let message ← pyFirst messages
  let messageType ← pyGet message (toC "type") .null
  let fromNumber ← pyGet message (toC "from") .null
  if !pyTruthy fromNumber then return none
  if pyEqStr messageType (toC "interactive") then
    let interactive0 ← pyGet message (toC "interactive") (.obj [])
    let itype ← pyGet interactive0 (toC "type") .null
    if pyEqStr itype (toC "button_reply") then
      let br ← pyGet interactive0 (toC "button_reply") (.obj [])
      let bid ← pyGet br (toC "id") .null
      return some (.buttonInteraction fromNumber bid)
    else if pyEqStr itype (toC "list_reply") then
      let lr ← pyGet interactive0 (toC "list_reply") (.obj [])
      let lid ← pyGet lr (toC "id") .null
      return some (.listInteraction fromNumber lid)
    else
      return some (.unsupported fromNumber)
  else if !pyEqStr messageType (toC "text") then
    return some (.unsupported fromNumber)
  else
    let textObj ← pyGet message (toC "text") (.obj [])
    let bodyRaw ← pyGet textObj (toC "body") (.str [])
    let bodyText ← pyStripV bodyRaw
    if bodyText.isEmpty then return some (.empty fromNumber)
    else return some (waClassifyText fromNumber bodyText)

/-- The `for change in changes` loop. -/
def waChangesLoop : List PyVal → Except PyErr (Option ParsedWa)
  | [] => .ok none
  | c :: rest => do
    let r ← waProcessChange c
    match r with
    | some pm => return some pm
    | none => waChangesLoop rest

/-- The `for entry in entries` loop. -/
def waEntriesLoop : List PyVal → Except PyErr (Option ParsedWa)
  | [] => .ok none
  | e :: rest => do
    let changes ← pyGet e (toC "changes") (.arr [])
    let changeList ← pyElems changes
    let r ← waChangesLoop changeList
    match r with
    | some pm => return some pm
    | none => waEntriesLoop rest

/-- `parse_whatsapp_message` before its `try/except`: `.ok none` is the
final `return None` of line 243, `.error` an escaping Python exception. -/
def parse_whatsapp_message_checked (w : PyVal) : Except PyErr (Option ParsedWa) := do
  let entries ← pyGet w (toC "entry") (.arr [])
  let entryList ← pyElems entries
  waEntriesLoop entryList

/-- `parse_whatsapp_message` (lines 142-247): the surrounding `try/except`
converts every exception into `None`.  (The `except` block only logs; on
JSON payloads, which is what the webhook feeds in, the logging cannot
itself raise.) -/
def parse_whatsapp_message (w : PyVal) : Option ParsedWa :=
  match parse_whatsapp_message_checked w with
  | .ok r => r
  | .error _ => none

/-! ### The Telegram normalizer (`telegram_bot.py`, lines 96-167) -/

/-- The dictionaries returned by `parse_telegram_message`. -/
inductive ParsedTg where
  | start (chatId : PyVal) (message : List Char)
  | help (chatId : PyVal) (message : List Char)
  | empty (chatId : PyVal) (message : List Char)
  | error (chatId : PyVal) (message : List Char)
  | recipeRequest (chatId : PyVal) (ingredients : List (List Char))
      (cuisine : Option (List Char)) (dietaryRestrictions : List (List Char))
      (cookingTime : Option Int)

/-- Lines 149-154: `int(parts[3].strip())` guarded by
`try/except ValueError`: the whole stripped segment must be an integer
literal, otherwise the cooking time stays `None`. -/
def tgCookingTime (seg : List Char) : Option Int :=
  if pyStrip seg = [] then none else pyToInt (pyStrip seg)

/-- Lines 132-163: the Telegram tokenizer.  Unlike the WhatsApp one, the
restrictions comprehension (line 147) filters blank comma tokens. -/
def tgTokenize (chatId : PyVal) (t : List Char) : ParsedTg :=
  let parts := pySplit '|' t
  let ingredients :=
    ((pySplit ',' (parts.getD 0 [])).filter (fun i => !(pyStrip i).isEmpty)).map
      (fun i => sanitize_input (pyStrip i))
  if ingredients.isEmpty then .error chatId (toC "No ingredients provided")
  else
    let cuisine :=
      if (pyStrip (parts.getD 1 [])).isEmpty then none
      else some (sanitize_input (pyStrip (parts.getD 1 [])))
    let restrictions :=
      if (pyStrip (parts.getD 2 [])).isEmpty then ([] : List (List Char))
      else ((pySplit ',' (parts.getD 2 [])).filter (fun r => !(pyStrip r).isEmpty)).map
        (fun r => sanitize_input (pyStrip r))
    .recipeRequest chatId ingredients cuisine restrictions (tgCookingTime (parts.getD 3 []))

/-- Lines 125-163 on the post-command text: blank text reports `empty`,
otherwise the tokenizer runs. -/
def tgClassifyText (chatId : PyVal) (messageText : List Char) : ParsedTg :=
  if messageText.isEmpty then .empty chatId messageText
  else tgTokenize chatId messageText

/-- `parse_telegram_message` before the `try/except`.  The guard
`"message" not in update or "text" not in update["message"]` short
circuits; `message_text` is computed (and can raise `AttributeError` on a
non-string) before `update["message"]["chat"]["id"]` is read (which can
raise `KeyError`).  `replace("/recipe", "", 1)` on a string that starts
with `/recipe` removes exactly that prefix (its first occurrence). -/
def parse_telegram_message_checked (u : PyVal) : Except PyErr (Option ParsedTg) := do
  let hasMsg ← pyHasKey u (toC "message")
  if !hasMsg then return none
  let msg ← pyIndexS u (toC "message")
  let hasText ← pyHasKey msg (toC "text")
  if !hasText then return none
  let textV ← pyIndexS msg (toC "text")
  let messageText ← pyStripV textV
  let chatObj ← pyIndexS msg (toC "chat")
  let chatId ← pyIndexS chatObj (toC "id")
  if pyStarts (toC "/recipe") messageText then
    return some (tgClassifyText chatId (pyStrip (messageText.drop 7)))
  else if pyStarts (toC "/start") messageText then
    return some (.start chatId messageText)
  else if pyStarts (toC "/help") messageText then
    return some (.help chatId messageText)
  else
    return some (tgClassifyText chatId messageText)

/-- `parse_telegram_message` (lines 96-167): `try/except` to `None`. -/
def parse_telegram_message (u : PyVal) : Option ParsedTg :=
  match parse_telegram_message_checked u with
  | .ok r => r
  | .error _ => none

/-- A minimal WhatsApp webhook payload carrying one text message, shaped
as in the source comment: entry, changes, value, messages. -/
def waTextPayload (fromNumber body : String) : PyVal :=
  .obj [(toC "entry", .arr [.obj [(toC "changes", .arr [.obj [(toC "value",
    .obj [(toC "messages", .arr [.obj [(toC "type", .str (toC "text")),
      (toC "from", .str (toC fromNumber)),
      (toC "text", .obj [(toC "body", .str (toC body))])]])])]])]])]

/-- A minimal Telegram update carrying one text message. -/
def tgTextUpdate (chatId : Int) (text : String) : PyVal :=
  .obj [(toC "message", .obj [(toC "text", .str (toC text)),
    (toC "chat", .obj [(toC "id", .num chatId)])])]

/-! ### The recipe formatters -/

/-- The recipe dict consumed by the formatters.  Every key is optional:
the formatters read some keys with `recipe[k]` (raising `KeyError` when
the key is absent) and others with `recipe.get(k, default)`.  Values are
modelled by their rendered text (the f-strings interpolate them with
`str`). -/
structure RecipeDict where
  title : Option (List Char)
  ingredients : Option (List (List Char))
  instructions : Option (List (List Char))
  cooking_time : Option (List Char)
  difficulty : Option (List Char)
  recipe_id : Option (List Char)

/-- Python `recipe[k]`: `KeyError` when the key is absent. -/
def keyOr {α : Type} (o : Option α) : Except PyErr α :=
  match o with
  | some x => .ok x
  | none => .error .keyError

/-- `"\n".join(lines)`. -/
def joinNl (lines : List (List Char)) : List Char := List.intercalate (toC "\n") lines

/-- Decimal rendering of a natural number (Python `str`). -/
def natStr (n : Nat) : List Char := Nat.toDigits 10 n

/-- The apology string returned by `format_recipe_for_whatsapp` on a blank
title (line 252). -/
def waApology : List Char :=
  toC "❌ I couldn\x27t generate a recipe with those ingredients. Please try different ingredients or check your formatting."

/-- The string returned by the `except` arm of
`format_recipe_for_whatsapp` (line 275). -/
def waFormatFallback : List Char :=
  toC "❌ Sorry, something went wrong while formatting the recipe. Please try again."

/-- The condition of line 251:
`not recipe.get('title') or not recipe['title'].strip()`. -/
def waTitleBlank (r : RecipeDict) : Bool :=
  match r.title with
  | none => true
  | some t => t.isEmpty || (pyStrip t).isEmpty

/-- Lines 254-272: the message list rendered once the title check passed,
joined by newlines. -/
def waRender (title : List Char) (ingredients instrs : List (List Char))
    (cookingTime difficulty : List Char) : List Char :=
  joinNl
    [toC "🍳 *Recipe Generated* 🍳",
     toC "*" ++ title ++ toC "*",
     [],
     toC "*Ingredients:*",
     joinNl (ingredients.map (fun i => toC "• " ++ i)),
     [],
     toC "*Instructions:*",
     joinNl (instrs.enum.map (fun p => natStr (p.1 + 1) ++ toC ". " ++ p.2)),
     [],
     toC "*Cooking Time:* " ++ cookingTime ++ toC " minutes",
     toC "*Difficulty:* " ++ difficulty,
     [],
     toC "Enjoy your meal! 🍽️",
     [],
     toC "Type \x27more\x27 for additional options or send new ingredients for another recipe."]

/-- `format_recipe_for_whatsapp` inside the `try` (lines 250-272).  When
the title is not blank it is in particular present, so `recipe['title']`
cannot raise; `ingredients` and `instructions` are read with `recipe[k]`,
cooking time and difficulty with `recipe.get(k, 'N/A')`. -/
def format_recipe_for_whatsapp_checked (r : RecipeDict) : Except PyErr (List Char) := do
  if waTitleBlank r then return waApology
  let t ← keyOr r.title
  let ings ← keyOr r.ingredients
  let instrs ← keyOr r.instructions
  return waRender t ings instrs (r.cooking_time.getD (toC "N/A")) (r.difficulty.getD (toC "N/A"))

/-- `format_recipe_for_whatsapp` (lines 249-275), `try/except` included. -/
def format_recipe_for_whatsapp (r : RecipeDict) : List Char :=
  match format_recipe_for_whatsapp_checked r with
  | .ok s => s
  | .error _ => waFormatFallback

/-- The string returned by the `except` arm of
`format_recipe_for_telegram` (line 196). -/
def tgFormatFallback : List Char := toC "Sorry, I couldn\x27t format the recipe properly."

/-- `get_no_ingredients_message` of `telegram_bot.py` (lines 357-366). -/
def tgNoIngredientsMsg : List Char :=
  toC "🔄 Message received, but no ingredients found.\n\nPossible issues:\n• Only emojis were used 🍅🥕 (please use text)\n• Too vague: \"some stuff from fridge\"\n• Formatting issues\n\nTry: \x27ingredient1, ingredient2, ingredient3\x27"

/-- Lines 173-188: the Telegram message list, joined by newlines.  The
instruction lines carry the literal backslash of the source f-string. -/
def tgRender (title : List Char) (ingredients instrs : List (List Char))
    (cookingTime difficulty recipeId : List Char) : List Char :=
  joinNl
    [toC "*🍳 " ++ title ++ toC " 🍳*",
     [],
     toC "*📋 Ingredients:*",
     joinNl (ingredients.map (fun i => toC "• " ++ i)),
     [],
     toC "*👩‍🍳 Instructions:*",
     joinNl (instrs.enum.map (fun p => natStr (p.1 + 1) ++ toC "\\. " ++ p.2)),
     [],
     toC "*⏰ Cooking Time:* " ++ cookingTime ++ toC " minutes",
     toC "*📊 Difficulty:* " ++ difficulty,
     [],
     toC "*Enjoy your meal!* 🍽️",
     [],
     toC "*Recipe ID:* `" ++ recipeId ++ toC "`"]

/-- `format_recipe_for_telegram` inside the `try` (lines 171-193): the
branch condition is the truthiness of `recipe.get('ingredients')`; the
title is never inspected.  All other fields are read with `recipe[k]`. -/
def format_recipe_for_telegram_checked (r : RecipeDict) : Except PyErr (List Char) := do
  match r.ingredients with
  | some (i :: rest) =>
    let t ← keyOr r.title
    let instrs ← keyOr r.instructions
    let ct ← keyOr r.cooking_time
    let df ← keyOr r.difficulty
    let rid ← keyOr r.recipe_id
    return tgRender t (i :: rest) instrs ct df rid
  | _ => return tgNoIngredientsMsg

/-- `format_recipe_for_telegram` (lines 169-196), `try/except` included. -/
def format_recipe_for_telegram (r : RecipeDict) : List Char :=
  match format_recipe_for_telegram_checked r with
  | .ok s => s
  | .error _ => tgFormatFallback

/-! ### Webhook signature verification
(`verify_whatsapp_webhook`, lines 117-140).  The source computes
`hmac.new(WHATSAPP_APP_SECRET.encode("utf-8"), body, hashlib.sha256)`;
SHA-256 (FIPS 180-4) and HMAC (RFC 2104) are embedded below over byte
lists, with 32-bit words as naturals reduced modulo `2 ^ 32`. -/

/-- `2 ^ 32`, the word modulus. -/
def M32 : Nat := 4294967296

/-- Right rotation of a 32-bit word. -/
def rotr32 (n x : Nat) : Nat := (x >>> n) ||| ((x <<< (32 - n)) % M32)

/-- Big sigma-0. -/
def bsig0 (x : Nat) : Nat := (rotr32 2 x) ^^^ (rotr32 13 x) ^^^ (rotr32 22 x)

/-- Big sigma-1. -/
def bsig1 (x : Nat) : Nat := (rotr32 6 x) ^^^ (rotr32 11 x) ^^^ (rotr32 25 x)

/-- Small sigma-0. -/
def ssig0 (x : Nat) : Nat := (rotr32 7 x) ^^^ (rotr32 18 x) ^^^ (x >>> 3)

/-- Small sigma-1. -/
def ssig1 (x : Nat) : Nat := (rotr32 17 x) ^^^ (rotr32 19 x) ^^^ (x >>> 10)

/-- Choice function. -/
def chFn (e f g : Nat) : Nat := (e &&& f) ^^^ ((e ^^^ 4294967295) &&& g)

/-- Majority function. -/
def majFn (a b c : Nat) : Nat := (a &&& b) ^^^ (a &&& c) ^^^ (b &&& c)

/-- The 64 SHA-256 round constants (FIPS 180-4, in decimal). -/
def K256 : List Nat :=
  [1116352408, 1899447441, 3049323471, 3921009573, 961987163, 1508970993,
   2453635748, 2870763221, 3624381080, 310598401, 607225278, 1426881987,
   1925078388, 2162078206, 2614888103, 3248222580, 3835390401, 4022224774,
   264347078, 604807628, 770255983, 1249150122, 1555081692, 1996064986,
   2554220882, 2821834349, 2952996808, 3210313671, 3336571891, 3584528711,
   113926993, 338241895, 666307205, 773529912, 1294757372, 1396182291,
   1695183700, 1986661051, 2177026350, 2456956037, 2730485921, 2820302411,
   3259730800, 3345764771, 3516065817, 3600352804, 4094571909, 275423344,
   430227734, 506948616, 659060556, 883997877, 958139571, 1322822218,
   1537002063, 1747873779, 1955562222, 2024104815, 2227730452, 2361852424,
   2428436474, 2756734187, 3204031479, 3329325298]

/-- The eight working variables of the compression function. -/
structure Sha2State where
  a : Nat
  b : Nat
  c : Nat
  d : Nat
  e : Nat
  f : Nat
  g : Nat
  h : Nat

/-- Initial hash value (FIPS 180-4, in decimal). -/
def initState : Sha2State :=
  ⟨1779033703, 3144134277, 1013904242, 2773480762,
   1359893119, 2600822924, 528734635, 1541459225⟩

/-- One compression round for a constant/schedule-word pair. -/
def roundFn (st : Sha2State) (kw : Nat × Nat) : Sha2State :=
  let t1 := (st.h + bsig1 st.e + chFn st.e st.f st.g + kw.1 + kw.2) % M32
  let t2 := (bsig0 st.a + majFn st.a st.b st.c) % M32
  ⟨(t1 + t2) % M32, st.a, st.b, st.c, (st.d + t1) % M32, st.e, st.f, st.g⟩

/-- Big-endian 32-bit words from a byte list (taken four at a time). -/
def bytesToWords : List Nat → List Nat
  | b0 :: b1 :: b2 :: b3 :: rest =>
    ((b0 <<< 24) + (b1 <<< 16) + (b2 <<< 8) + b3) :: bytesToWords rest
  | _ => []

/-- Message-schedule extension: `acc` holds the words most recent first;
48 steps extend the 16 block words to 64, returned in order. -/
def extendW : Nat → List Nat → List Nat
  | 0, acc => acc.reverse
  | fuel + 1, acc =>
    let w := (acc.getD 15 0 + ssig0 (acc.getD 14 0) + acc.getD 6 0 + ssig1 (acc.getD 1 0)) % M32
    extendW fuel (w :: acc)

/-- Compression of one 64-byte block. -/
def compressBlock (h0 : Sha2State) (block : List Nat) : Sha2State :=
  let w := extendW 48 (bytesToWords block).reverse
  let st := (K256.zip w).foldl roundFn h0
  ⟨(h0.a + st.a) % M32, (h0.b + st.b) % M32, (h0.c + st.c) % M32, (h0.d + st.d) % M32,
   (h0.e + st.e) % M32, (h0.f + st.f) % M32, (h0.g + st.g) % M32, (h0.h + st.h) % M32⟩

/-- Big-endian 8-byte encoding of the bit length. -/
def be64 (n : Nat) : List Nat :=
  [(n >>> 56) % 256, (n >>> 48) % 256, (n >>> 40) % 256, (n >>> 32) % 256,
   (n >>> 24) % 256, (n >>> 16) % 256, (n >>> 8) % 256, n % 256]

/-- SHA-256 padding: a `0x80` byte, zeros to 56 modulo 64, and the
64-bit big-endian bit length. -/
def shaPad (m : List Nat) : List Nat :=
  m ++ 128 :: (List.replicate ((119 - m.length % 64) % 64) 0 ++ be64 (8 * m.length))

/-- Split into 64-byte blocks; the fuel argument (instantiated with the
list length) keeps the recursion structural. -/
def chunks64 : Nat → List Nat → List (List Nat)
  | 0, _ => []
  | _, [] => []
  | fuel + 1, l => l.take 64 :: chunks64 fuel (l.drop 64)

/-- Big-endian bytes of a 32-bit word. -/
def word2bytes (w : Nat) : List Nat :=
  [(w >>> 24) % 256, (w >>> 16) % 256, (w >>> 8) % 256, w % 256]

/-- SHA-256 of a byte list. -/
def sha256 (m : List Nat) : List Nat :=
  let p := shaPad m
  let hf := (chunks64 p.length p).foldl compressBlock initState
  word2bytes hf.a ++ word2bytes hf.b ++ word2bytes hf.c ++ word2bytes hf.d ++
    word2bytes hf.e ++ word2bytes hf.f ++ word2bytes hf.g ++ word2bytes hf.h

/-- HMAC-SHA256 (RFC 2104): block size 64, `0x36`/`0x5c` pads. -/
def hmac_sha256 (key msg : List Nat) : List Nat :=
  let k1 := if 64 < key.length then sha256 key else key
  let k0 := k1 ++ List.replicate (64 - k1.length) 0
  sha256 ((k0.map (fun b => b ^^^ 92)) ++ sha256 ((k0.map (fun b => b ^^^ 54)) ++ msg))

/-- Lowercase hexadecimal digit. -/
def hexChar (n : Nat) : Char := if n < 10 then Char.ofNat (48 + n) else Char.ofNat (87 + n)

/-- `.hexdigest()`: two lowercase hex characters per byte. -/
def hexdigest (bytes : List Nat) : List Char :=
  bytes.foldr (fun b acc => hexChar (b / 16) :: hexChar (b % 16) :: acc) []

/-- The value the source computes at lines 130-135 and prefixes with
`"sha256="`: the well-formed signature header for a body. -/
def waSignature (secret body : List Nat) : List Char :=
  toC "sha256=" ++ hexdigest (hmac_sha256 secret body)

/-- `verify_whatsapp_webhook` (lines 117-140).  `secret` is the configured
`WHATSAPP_APP_SECRET` as UTF-8 bytes (empty means unset, the falsy guard
of line 119), `body` the raw request bytes, `header` the optional
`X-Hub-Signature-256` header (`headers.get` defaults to the empty
string).  `hmac.compare_digest` is a timing-safe string equality. -/
def verify_whatsapp_webhook (secret body : List Nat) (header : Option (List Char)) : Bool :=
  if secret.isEmpty then true
  else
    let signature := header.getD []
    if !pyStarts (toC "sha256=") signature then false
    else (toC "sha256=" ++ hexdigest (hmac_sha256 secret body)) == signature

/-- The cooking-time extraction in the words of the spec (section 4.2):
search the time segment for the first run of digits and parse it as an
integer; `None` when no digits are found or the segment is blank (a blank
segment contains no digit, so a single scan expresses both cases). -/
def specCookingTime (seg : List Char) : Option Nat := firstDigitRun seg

/-- `true` exactly on a returned `payment_status` dictionary; used to
state that this intent is unreachable. -/
def returnsPaymentStatus : Option ParsedWa → Bool
  | some (.paymentStatus _) => true
  | _ => false

/-! ## Properties of stripping and the sanitizer -/

theorem pyStrip_eq_rdropWhile (l : List Char) :
    pyStrip l = List.rdropWhile pySpace (l.dropWhile pySpace) := rfl

theorem pyStrip_idem (l : List Char) : pyStrip (pyStrip l) = pyStrip l := by
  rw [pyStrip_eq_rdropWhile, pyStrip_eq_rdropWhile]
  have h1 : List.dropWhile pySpace (List.rdropWhile pySpace (l.dropWhile pySpace)) =
      List.rdropWhile pySpace (l.dropWhile pySpace) := by
    rw [List.dropWhile_eq_self_iff]
    intro hl
    have hpre := List.rdropWhile_prefix pySpace (l.dropWhile pySpace)
    have hlen : 0 < (l.dropWhile pySpace).length := lt_of_lt_of_le hl hpre.length_le
    have hget := List.IsPrefix.getElem hpre (n := 0) hl
    have hnot := List.dropWhile_get_zero_not pySpace l hlen
    simp only [List.get_eq_getElem] at hnot ⊢
    rw [hget]
    exact hnot
  rw [h1, List.rdropWhile_idempotent]

theorem pyStrip_sublist (l : List Char) : List.Sublist (pyStrip l) l := by
  rw [pyStrip_eq_rdropWhile]
  exact (List.rdropWhile_prefix pySpace _).sublist.trans (List.dropWhile_sublist pySpace)

theorem mem_pyStrip {l : List Char} {c : Char} (h : c ∈ pyStrip l) : c ∈ l :=
  (pyStrip_sublist l).subset h

theorem length_pyStrip_le (l : List Char) : (pyStrip l).length ≤ l.length :=
  (pyStrip_sublist l).length_le

theorem mem_sanitize_not_harmful {l : List Char} {c : Char} (h : c ∈ sanitize_input l) :
    harmful c = false := by
  unfold sanitize_input at h
  by_cases hl : l = []
  · rw [if_pos hl] at h
    simp at h
  · rw [if_neg hl] at h
    have h2 := List.mem_of_mem_take h
    rw [List.mem_filter] at h2
    simpa using h2.2

theorem length_sanitize_le (l : List Char) : (sanitize_input l).length ≤ 500 := by
  unfold sanitize_input
  by_cases hl : l = []
  · rw [if_pos hl]; simp
  · rw [if_neg hl]; exact List.length_take_le _ _

theorem sanitize_of_clean (y : List Char) (hgood : ∀ c ∈ y, harmful c = false)
    (hlen : y.length ≤ 500) : sanitize_input y = pyStrip y := by
  unfold sanitize_input
  by_cases hy : y = []
  · rw [if_pos hy]; subst hy; rfl
  · rw [if_neg hy]
    have hfilter : (pyStrip y).filter (fun c => !harmful c) = pyStrip y := by
      rw [List.filter_eq_self]
      intro a ha
      simp [hgood a (mem_pyStrip ha)]
    rw [hfilter]
    exact List.take_of_length_le (le_trans (length_pyStrip_le y) hlen)

/-- **C5 counterexample.**  The sanitizer is not idempotent: on `"< a"`
one application removes the angle bracket and keeps the now-leading
space, while a second application strips that space. -/
theorem sanitize_input_not_idempotent :
    sanitize_input (sanitize_input (toC "< a")) ≠ sanitize_input (toC "< a") := by decide

/-- **C5 (amended).**  The sanitizer is idempotent from the second
application onward: for every string `x`, `sanitize (sanitize x)` is a
fixed point of `sanitize`; a single application need not be one, because
removing a harmful character can expose new boundary whitespace. -/
theorem sanitize_input_double_idempotent (l : List Char) :
    sanitize_input (sanitize_input (sanitize_input l)) =
      sanitize_input (sanitize_input l) := by
  have key : ∀ y : List Char, (∀ c ∈ y, harmful c = false) → y.length ≤ 500 →
      sanitize_input (sanitize_input y) = sanitize_input y := by
    intro y hg hl
    rw [sanitize_of_clean y hg hl,
      sanitize_of_clean (pyStrip y) (fun c hc => hg c (mem_pyStrip hc))
        (le_trans (length_pyStrip_le y) hl),
      pyStrip_idem]
  exact key (sanitize_input l) (fun c hc => mem_sanitize_not_harmful hc) (length_sanitize_le l)

/-! ## Substring containment and keyword classification -/

theorem pyStarts_iff (a b : List Char) : pyStarts a b = true ↔ ∃ t, b = a ++ t := by
  induction a generalizing b with
  | nil => simp [pyStarts]
  | cons x xs ih =>
    cases b with
    | nil => simp [pyStarts]
    | cons y ys =>
      simp only [pyStarts, Bool.and_eq_true, beq_iff_eq]
      rw [ih]
      constructor
      · rintro ⟨hxy, t, ht⟩
        exact ⟨t, by subst hxy; rw [ht]; rfl⟩
      · rintro ⟨t, ht⟩
        injection ht with h1 h2
        exact ⟨h1.symm, t, h2⟩

theorem pyIn_iff (a b : List Char) : pyIn a b = true ↔ ∃ u v, b = u ++ a ++ v := by
  induction b with
  | nil =>
    simp only [pyIn, pyStarts_iff]
    constructor
    · rintro ⟨t, ht⟩
      exact ⟨[], t, by simpa using ht⟩
    · rintro ⟨u, v, huv⟩
      refine ⟨v, ?_⟩
      cases u with
      | nil => simpa using huv
      | cons x xs => exact absurd huv (by simp)
  | cons c t ih =>
    simp only [pyIn, Bool.or_eq_true, pyStarts_iff, ih]
    constructor
    · rintro (⟨v, hv⟩ | ⟨u, v, huv⟩)
      · exact ⟨[], v, by simpa using hv⟩
      · exact ⟨c :: u, v, by rw [huv]; rfl⟩
    · rintro ⟨u, v, huv⟩
      cases u with
      | nil => exact Or.inl ⟨v, by simpa using huv⟩
      | cons x xs =>
        injection huv with h1 h2
        exact Or.inr ⟨xs, v, h2⟩

theorem pyIn_trans {a b c : List Char} (h1 : pyIn a b = true) (h2 : pyIn b c = true) :
    pyIn a c = true := by
  rw [pyIn_iff] at h1 h2 ⊢
  obtain ⟨u, v, huv⟩ := h1
  obtain ⟨x, y, hxy⟩ := h2
  refine ⟨x ++ u, v ++ y, ?_⟩
  rw [hxy, huv]
  simp [List.append_assoc]

/-- Every phrase of the payment-status keyword set contains `"pay"`, so a
body matching the second branch already matched the first. -/
theorem anyIn_payStatus_implies_pay {bl : List Char} (h : anyIn payStatusKws bl = true) :
    anyIn payKws bl = true := by
  rw [anyIn, List.any_eq_true] at h
  obtain ⟨w, hw, hin⟩ := h
  have hpay : pyIn (toC "pay") w = true := by
    simp only [payStatusKws, List.mem_cons, List.not_mem_nil, or_false] at hw
    rcases hw with h | h | h | h <;> subst h <;> decide
  rw [anyIn, List.any_eq_true]
  exact ⟨toC "pay", by simp [payKws], pyIn_trans hpay hin⟩

/-- **C1.**  Any lower-cased body containing one of the payment keywords
`pay, payment, premium, upgrade, subscribe, buy` is classified
`payment_request` by the first check of the chain, so no later
(conversational) check can fire; in particular the normalizer maps the
body `"I want to pay for premium, thanks"` to `payment_request` and not
to `thank_you`. -/
theorem payment_keywords_classify_first :
    (∀ (f : PyVal) (bl : List Char), anyIn payKws bl = true →
      waKeywordIntent f bl = some (.paymentRequest f)) ∧
    parse_whatsapp_message (waTextPayload "15551234567" "I want to pay for premium, thanks") =
      some (.paymentRequest (.str (toC "15551234567"))) := by
  constructor
  · intro f bl h
    unfold waKeywordIntent
    rw [if_pos h]
  · rfl

/-- Witness for C1: the hypothesis holds at the concrete lower-cased body
`"please pay now"`. -/
theorem payment_keywords_classify_first_witness :
    waKeywordIntent PyVal.null (toC "please pay now") =
      some (.paymentRequest PyVal.null) :=
  payment_keywords_classify_first.1 PyVal.null (toC "please pay now") (by decide)

theorem waKeywordIntent_no_status (f : PyVal) (bl : List Char) :
    returnsPaymentStatus (waKeywordIntent f bl) = false := by
  unfold waKeywordIntent
  by_cases h1 : anyIn payKws bl = true
  · rw [if_pos h1]; rfl
  · rw [if_neg h1]
    by_cases h2 : anyIn payStatusKws bl = true
    · exact absurd (anyIn_payStatus_implies_pay h2) h1
    · rw [if_neg h2]
      repeat' split
      all_goals rfl

theorem waTokenize_no_status (f : PyVal) (t : List Char) :
    returnsPaymentStatus (some (waTokenize f t)) = false := by
  simp only [waTokenize]
  split <;> rfl

theorem waClassifyText_no_status (f : PyVal) (t : List Char) :
    returnsPaymentStatus (some (waClassifyText f t)) = false := by
  unfold waClassifyText
  cases h : waKeywordIntent f (t.map Char.toLower) with
  | none => exact waTokenize_no_status f t
  | some r =>
    have h2 := waKeywordIntent_no_status f (t.map Char.toLower)
    rw [h] at h2
    exact h2

theorem waProcessChange_no_status (c : PyVal) (r : ParsedWa)
    (h : waProcessChange c = .ok (some r)) : returnsPaymentStatus (some r) = false := by
  unfold waProcessChange at h
  simp only [bind, Except.bind, pure, Except.pure] at h
  repeat' split at h
  all_goals first
    | exact Except.noConfusion h
    | (injection h with h2; first
        | exact Option.noConfusion h2
        | (injection h2 with h3; subst h3; first
            | rfl
            | exact waClassifyText_no_status _ _))

theorem waChangesLoop_no_status (cs : List PyVal) (r : ParsedWa)
    (h : waChangesLoop cs = .ok (some r)) : returnsPaymentStatus (some r) = false := by
  induction cs with
  | nil =>
    simp only [waChangesLoop] at h
    injection h with h2
    exact Option.noConfusion h2
  | cons c rest ih =>
    cases hc : waProcessChange c with
    | error e =>
      simp only [waChangesLoop, hc, bind, Except.bind] at h
      exact Except.noConfusion h
    | ok o =>
      cases o with
      | some pm =>
        simp only [waChangesLoop, hc, bind, Except.bind, pure, Except.pure,
          Except.ok.injEq, Option.some.injEq] at h
        subst h
        exact waProcessChange_no_status c _ hc
      | none =>
        simp only [waChangesLoop, hc, bind, Except.bind] at h
        exact ih h

theorem waEntriesLoop_no_status (es : List PyVal) (r : ParsedWa)
    (h : waEntriesLoop es = .ok (some r)) : returnsPaymentStatus (some r) = false := by
  induction es with
  | nil =>
    simp only [waEntriesLoop] at h
    injection h with h2
    exact Option.noConfusion h2
  | cons e rest ih =>
    simp only [waEntriesLoop, bind, Except.bind] at h
    split at h
    · exact Except.noConfusion h
    · split at h
      · exact Except.noConfusion h
      · rename_i l1 hl1 l2 hl2
        cases hc : waChangesLoop l2 with
        | error e2 =>
          rw [hc] at h
          exact Except.noConfusion h
        | ok o =>
          rw [hc] at h
          cases o with
          | some pm =>
            simp only [pure, Except.pure, Except.ok.injEq, Option.some.injEq] at h
            subst h
            exact waChangesLoop_no_status l2 _ hc
          | none => exact ih h

theorem parse_whatsapp_message_no_status (w : PyVal) :
    returnsPaymentStatus (parse_whatsapp_message w) = false := by
  unfold parse_whatsapp_message
  cases hp : parse_whatsapp_message_checked w with
  | error e => rfl
  | ok o =>
    cases o with
    | none => rfl
    | some r =>
      unfold parse_whatsapp_message_checked at hp
      simp only [bind, Except.bind] at hp
      split at hp
      · exact Except.noConfusion hp
      · split at hp
        · exact Except.noConfusion hp
        · exact waEntriesLoop_no_status _ r hp

/-- **C2 counterexample.**  The normalizer does return the
`payment_confirmation` intent: `"paid"` does not contain `"pay"` as a
substring, so the body `"i paid yesterday"` passes the `payment_request`
and `payment_status` checks unmatched and triggers the `"paid"` keyword
of the `payment_confirmation` branch. -/
theorem whatsapp_paid_payment_confirmation :
    parse_whatsapp_message (waTextPayload "888" "i paid yesterday") =
      some (.paymentConfirmation (.str (toC "888"))) := rfl

/-- **C2 (amended).**  The `payment_status` branch is indeed unreachable:
each of its phrases contains `"pay"`, so the `payment_request` check
always matches first, and no input whatsoever makes the normalizer
return `payment_status`.  The `payment_confirmation` branch, however, is
reachable, because its keywords `"paid"` and `"i paid"` do not contain
`"pay"`: the body `"paid"` yields `payment_confirmation`. -/
theorem whatsapp_payment_status_unreachable :
    (∀ w : PyVal, returnsPaymentStatus (parse_whatsapp_message w) = false) ∧
    parse_whatsapp_message (waTextPayload "777" "paid") =
      some (.paymentConfirmation (.str (toC "777"))) :=
  ⟨parse_whatsapp_message_no_status, rfl⟩

/-! ## Cooking-time extraction -/

theorem pySpace_not_digit {c : Char} (h : pySpace c = true) : c.isDigit = false := by
  simp only [pySpace, Bool.or_eq_true, beq_iff_eq] at h
  rcases h with ((((h | h) | h) | h) | h) | h <;> subst h <;> rfl

theorem firstDigitRun_cons_not_digit {c : Char} (t : List Char) (h : c.isDigit = false) :
    firstDigitRun (c :: t) = firstDigitRun t := by
  simp [firstDigitRun, h]

theorem firstDigitRun_dropWhile_space (l : List Char) :
    firstDigitRun (l.dropWhile pySpace) = firstDigitRun l := by
  induction l with
  | nil => rfl
  | cons c t ih =>
    rw [List.dropWhile_cons]
    by_cases h : pySpace c = true
    · rw [if_pos h, ih, firstDigitRun_cons_not_digit t (pySpace_not_digit h)]
    · rw [if_neg h]

theorem firstDigitRun_all_space (s : List Char) (hs : ∀ c ∈ s, pySpace c = true) :
    firstDigitRun s = none := by
  induction s with
  | nil => rfl
  | cons c t ih =>
    rw [firstDigitRun_cons_not_digit t (pySpace_not_digit (hs c (by simp)))]
    exact ih (fun x hx => hs x (by simp [hx]))

theorem takeWhile_append_nil {p : Char → Bool} (m s : List Char)
    (h : s.takeWhile p = []) : (m ++ s).takeWhile p = m.takeWhile p := by
  induction m with
  | nil => simpa using h
  | cons a t ih =>
    rw [List.cons_append, List.takeWhile_cons, List.takeWhile_cons]
    by_cases hp : p a = true
    · rw [if_pos hp, if_pos hp, ih]
    · rw [if_neg hp, if_neg hp]

theorem firstDigitRun_append_space (m s : List Char) (hs : ∀ c ∈ s, pySpace c = true) :
    firstDigitRun (m ++ s) = firstDigitRun m := by
  induction m with
  | nil => simpa using firstDigitRun_all_space s hs
  | cons c t ih =>
    by_cases hd : c.isDigit = true
    · have hts : s.takeWhile Char.isDigit = [] := by
        cases s with
        | nil => rfl
        | cons x xs =>
          rw [List.takeWhile_cons, if_neg]
          simp [pySpace_not_digit (hs x (by simp))]
      rw [List.cons_append]
      simp [firstDigitRun, hd, takeWhile_append_nil t s hts]
    · rw [List.cons_append,
        firstDigitRun_cons_not_digit _ (by simpa using hd),
        firstDigitRun_cons_not_digit _ (by simpa using hd)]
      exact ih

/-- A stripped string is the left-space-dropped string minus a
whitespace-only tail. -/
theorem pyStrip_decomp (l : List Char) :
    ∃ s, l.dropWhile pySpace = pyStrip l ++ s ∧ ∀ c ∈ s, pySpace c = true := by
  rw [pyStrip_eq_rdropWhile]
  refine ⟨((l.dropWhile pySpace).reverse.takeWhile pySpace).reverse, ?_, ?_⟩
  · rw [List.rdropWhile]
    conv_lhs => rw [← (l.dropWhile pySpace).reverse_reverse,
      ← List.takeWhile_append_dropWhile pySpace (l.dropWhile pySpace).reverse]
    rw [List.reverse_append]
  · intro c hc
    rw [List.mem_reverse] at hc
    exact List.mem_takeWhile_imp hc

/-- Stripping whitespace off both ends does not change the first digit
run: whitespace is not a digit and cannot interrupt or contribute one. -/
theorem firstDigitRun_pyStrip (l : List Char) :
    firstDigitRun (pyStrip l) = firstDigitRun l := by
  obtain ⟨s, hdecomp, hs⟩ := pyStrip_decomp l
  rw [← firstDigitRun_dropWhile_space l, hdecomp,
    firstDigitRun_append_space _ s hs]

/-- The WhatsApp cooking-time extraction refines the spec sentence: strip
or no strip, blank guard or no blank guard, the result is the first digit
run of the segment. -/
theorem waCookingTime_eq_spec (seg : List Char) : waCookingTime seg = specCookingTime seg := by
  unfold waCookingTime specCookingTime
  by_cases h : pyStrip seg = []
  · rw [if_pos h, ← firstDigitRun_pyStrip seg, h]
    rfl
  · rw [if_neg h, firstDigitRun_pyStrip]

/-- **C3 counterexample.**  The fourth segment `"30min"` is non-blank and
carries the digit run `30`, but the Telegram normalizer leaves
`cooking_time` at `None`: its strict `int(...)` conversion raises
`ValueError` on `"30min"`, so the claimed digit-run behavior does not
hold for Telegram. -/
theorem telegram_cooking_time_strict :
    parse_telegram_message (tgTextUpdate 1 "a|b|c|30min") =
      some (.recipeRequest (.num 1) [toC "a"] (some (toC "b")) [toC "c"] none) ∧
    parse_telegram_message (tgTextUpdate 1 "a|b|c|30min") ≠
      some (.recipeRequest (.num 1) [toC "a"] (some (toC "b")) [toC "c"] (some 30)) := by
  refine ⟨rfl, ?_⟩
  intro h
  have h0 : parse_telegram_message (tgTextUpdate 1 "a|b|c|30min") =
      some (.recipeRequest (.num 1) [toC "a"] (some (toC "b")) [toC "c"] none) := rfl
  rw [h0] at h
  simp at h

/-- **C3 (amended).**  The digit-run extraction is the WhatsApp
normalizer's behavior, and it matches the spec sentence exactly (first
embedded digit run, `None` on blank or digit-free segments); the Telegram
normalizer accepts only segments that are integer literals after
stripping, so `"a|b|c|30min"` gives cooking time 30 on WhatsApp and
`None` on Telegram. -/
theorem cooking_time_digit_run_wa_only :
    (∀ seg : List Char, waCookingTime seg = specCookingTime seg) ∧
    parse_whatsapp_message (waTextPayload "9" "a|b|c|30min") =
      some (.recipeRequest (.str (toC "9")) [toC "a"] (some (toC "b")) [toC "c"]
        (some 30) (toC "a|b|c|30min")) ∧
    parse_telegram_message (tgTextUpdate 3 "a|b|c|30min") =
      some (.recipeRequest (.num 3) [toC "a"] (some (toC "b")) [toC "c"] none) :=
  ⟨waCookingTime_eq_spec, rfl, rfl⟩

/-- **C4 counterexample.**  The WhatsApp restrictions comprehension has no
blank-token filter: segment `"r1,,r2"` tokenizes to `["r1", "", "r2"]`,
so the dietary-restrictions sequence does contain an empty string. -/
theorem whatsapp_restrictions_keep_empty_token :
    parse_whatsapp_message (waTextPayload "7" "x|y|r1,,r2") =
      some (.recipeRequest (.str (toC "7")) [toC "x"] (some (toC "y"))
        [toC "r1", [], toC "r2"] none (toC "x|y|r1,,r2")) ∧
    ([] : List Char) ∈ [toC "r1", ([] : List Char), toC "r2"] :=
  ⟨rfl, by simp⟩

/-- **C4 (amended).**  The Telegram normalizer drops comma tokens of the
restrictions segment that are blank before sanitization, so `"r1,,r2"`
yields `["r1", "r2"]` there; the WhatsApp normalizer maps the sanitizer
over every token without filtering, so the same segment yields
`["r1", "", "r2"]` with the empty token retained. -/
theorem restrictions_empty_token_divergence :
    parse_telegram_message (tgTextUpdate 2 "x|y|r1,,r2") =
      some (.recipeRequest (.num 2) [toC "x"] (some (toC "y")) [toC "r1", toC "r2"] none) ∧
    parse_whatsapp_message (waTextPayload "4" "x|y|r1,,r2") =
      some (.recipeRequest (.str (toC "4")) [toC "x"] (some (toC "y"))
        [toC "r1", [], toC "r2"] none (toC "x|y|r1,,r2")) :=
  ⟨rfl, rfl⟩

/-- **C6.**  The free-text body `"a, b , , c |cuisine| r1,r2 | 30min"`
tokenizes to ingredients `["a", "b", "c"]` in order with the blank token
dropped, cuisine `"cuisine"`, restrictions `["r1", "r2"]` and cooking
time 30. -/
theorem free_text_tokenization_example :
    parse_whatsapp_message (waTextPayload "5" "a, b , , c |cuisine| r1,r2 | 30min") =
      some (.recipeRequest (.str (toC "5")) [toC "a", toC "b", toC "c"]
        (some (toC "cuisine")) [toC "r1", toC "r2"] (some 30)
        (toC "a, b , , c |cuisine| r1,r2 | 30min")) := rfl

/-! ## The formatters -/

theorem format_whatsapp_blank_title (r : RecipeDict) (h : waTitleBlank r = true) :
    format_recipe_for_whatsapp r = waApology := by
  unfold format_recipe_for_whatsapp format_recipe_for_whatsapp_checked
  simp [h, pure, Except.pure]

theorem format_telegram_no_ingredients (r : RecipeDict)
    (h : r.ingredients = some [] ∨ r.ingredients = none) :
    format_recipe_for_telegram r = tgNoIngredientsMsg := by
  unfold format_recipe_for_telegram format_recipe_for_telegram_checked
  rcases h with h | h <;> rw [h] <;> rfl

theorem format_whatsapp_render (t : List Char) (ings instrs : List (List Char))
    (ct df rid : Option (List Char))
    (h : waTitleBlank ⟨some t, some ings, some instrs, ct, df, rid⟩ = false) :
    format_recipe_for_whatsapp ⟨some t, some ings, some instrs, ct, df, rid⟩ =
      waRender t ings instrs (ct.getD (toC "N/A")) (df.getD (toC "N/A")) := by
  unfold format_recipe_for_whatsapp format_recipe_for_whatsapp_checked
  simp [h, keyOr, bind, Except.bind, pure, Except.pure]

theorem format_telegram_render (t ct df rid i : List Char) (ings instrs : List (List Char)) :
    format_recipe_for_telegram
        ⟨some t, some (i :: ings), some instrs, some ct, some df, some rid⟩ =
      tgRender t (i :: ings) instrs ct df rid := rfl

/-- **C7 counterexample.**  The Telegram formatter does not return an
apology on a blank title: with title `""` and one ingredient `"x"` it
renders the whole recipe, ingredient and instruction lines included,
around an empty header. -/
theorem telegram_blank_title_renders :
    format_recipe_for_telegram ⟨some [], some [toC "x"], some [toC "s"], some (toC "5"),
        some (toC "Easy"), some (toC "r1")⟩ =
      toC "*🍳  🍳*\n\n*📋 Ingredients:*\n• x\n\n*👩‍🍳 Instructions:*\n1\\. s\n\n*⏰ Cooking Time:* 5 minutes\n*📊 Difficulty:* Easy\n\n*Enjoy your meal!* 🍽️\n\n*Recipe ID:* `r1`" ∧
    format_recipe_for_telegram ⟨some [], some [toC "x"], some [toC "s"], some (toC "5"),
        some (toC "Easy"), some (toC "r1")⟩ ≠ tgFormatFallback :=
  ⟨rfl, by decide⟩

/-- **C7 (amended).**  The WhatsApp formatter returns the fixed apology
string for every recipe with a blank (missing, empty or whitespace-only)
title, whatever the other fields hold; the Telegram formatter never
inspects the title: it returns the no-ingredients message when the
ingredients are empty or missing, and otherwise renders the recipe even
when the title is blank. -/
theorem blank_title_formatter_behavior :
    (∀ r : RecipeDict, waTitleBlank r = true → format_recipe_for_whatsapp r = waApology) ∧
    (∀ r : RecipeDict, r.ingredients = some [] ∨ r.ingredients = none →
      format_recipe_for_telegram r = tgNoIngredientsMsg) ∧
    format_recipe_for_telegram ⟨some [], some [toC "x"], some [toC "s"], some (toC "5"),
        some (toC "Easy"), some (toC "r1")⟩ =
      tgRender [] [toC "x"] [toC "s"] (toC "5") (toC "Easy") (toC "r1") :=
  ⟨format_whatsapp_blank_title, format_telegram_no_ingredients, rfl⟩

/-- Witness for C7 (amended): a whitespace-only WhatsApp title yields the
apology although every other field is populated, and an empty Telegram
ingredient list yields the no-ingredients message. -/
theorem blank_title_formatter_behavior_witness :
    format_recipe_for_whatsapp ⟨some (toC "   "), some [toC "i"], some [toC "s"],
        some (toC "5"), some (toC "Easy"), some (toC "r")⟩ = waApology ∧
    format_recipe_for_telegram ⟨some (toC "T"), some [], some [toC "s"],
        some (toC "5"), some (toC "Easy"), some (toC "r")⟩ = tgNoIngredientsMsg :=
  ⟨blank_title_formatter_behavior.1 _ (by decide),
   blank_title_formatter_behavior.2.1 _ (Or.inl rfl)⟩

/-- **C9.**  Both formatters are total string-valued functions: each
either returns the result of its exception-free body or catches and
returns the fixed fallback string; and on empty ingredient or
instruction sequences the body succeeds, rendering empty sections
(WhatsApp) or returning the no-ingredients fallback (Telegram, covered by
C7), never an error. -/
theorem formatters_total :
    (∀ r : RecipeDict, format_recipe_for_whatsapp r = waFormatFallback ∨
      format_recipe_for_whatsapp_checked r = .ok (format_recipe_for_whatsapp r)) ∧
    (∀ r : RecipeDict, format_recipe_for_telegram r = tgFormatFallback ∨
      format_recipe_for_telegram_checked r = .ok (format_recipe_for_telegram r)) ∧
    (∀ (t : List Char) (ings instrs : List (List Char)) (ct df rid : Option (List Char)),
      waTitleBlank ⟨some t, some ings, some instrs, ct, df, rid⟩ = false →
      format_recipe_for_whatsapp ⟨some t, some ings, some instrs, ct, df, rid⟩ =
        waRender t ings instrs (ct.getD (toC "N/A")) (df.getD (toC "N/A"))) ∧
    (∀ (t ct df rid i : List Char) (instrs : List (List Char)),
      format_recipe_for_telegram ⟨some t, some [i], some instrs, some ct, some df, some rid⟩ =
        tgRender t [i] instrs ct df rid) := by
  refine ⟨?_, ?_, ?_, ?_⟩
  · intro r
    cases hc : format_recipe_for_whatsapp_checked r with
    | ok s =>
      right
      unfold format_recipe_for_whatsapp
      rw [hc]
    | error e =>
      left
      unfold format_recipe_for_whatsapp
      rw [hc]
  · intro r
    cases hc : format_recipe_for_telegram_checked r with
    | ok s =>
      right
      unfold format_recipe_for_telegram
      rw [hc]
    | error e =>
      left
      unfold format_recipe_for_telegram
      rw [hc]
  · intro t ings instrs ct df rid h
    exact format_whatsapp_render t ings instrs ct df rid h
  · intro t ct df rid i instrs
    exact format_telegram_render t ct df rid i [] instrs

/-- Witness for C9: at a one-word title and empty ingredient and
instruction sequences, the WhatsApp formatter emits the rendered message
(empty bullet and step sections), and the Telegram formatter renders an
empty instruction section. -/
theorem formatters_total_witness :
    format_recipe_for_whatsapp ⟨some (toC "T"), some [], some [], none, none, none⟩ =
      waRender (toC "T") [] [] (toC "N/A") (toC "N/A") ∧
    format_recipe_for_telegram ⟨some (toC "T"), some [toC "x"], some [], some (toC "5"),
        some (toC "E"), some (toC "r")⟩ =
      tgRender (toC "T") [toC "x"] [] (toC "5") (toC "E") (toC "r") :=
  ⟨formatters_total.2.2.1 (toC "T") [] [] none none none (by decide),
   formatters_total.2.2.2 (toC "T") (toC "5") (toC "E") (toC "r") (toC "x") []⟩

/-! ## Totality of the normalizers -/

/-- **C10.**  Both normalizers are total `Option`-returning functions on
arbitrary JSON payloads: whatever shape the input has, the `try` body
either produces a value, which the normalizer returns, or raises, and the
normalizer returns `None`; two malformed payloads (a non-iterable `entry`
and an update whose message lacks a `chat`) evaluate concretely to
`None`. -/
theorem normalizers_total :
    (∀ w : PyVal, (∃ v, parse_whatsapp_message_checked w = .ok v ∧
        parse_whatsapp_message w = v) ∨
      (∃ e, parse_whatsapp_message_checked w = .error e ∧
        parse_whatsapp_message w = none)) ∧
    (∀ u : PyVal, (∃ v, parse_telegram_message_checked u = .ok v ∧
        parse_telegram_message u = v) ∨
      (∃ e, parse_telegram_message_checked u = .error e ∧
        parse_telegram_message u = none)) ∧
    parse_whatsapp_message (.obj [(toC "entry", .num 3)]) = none ∧
    parse_telegram_message (.obj [(toC "message", .obj [(toC "text", .str (toC "hi"))])]) =
      none := by
  refine ⟨?_, ?_, rfl, rfl⟩
  · intro w
    cases hc : parse_whatsapp_message_checked w with
    | ok v =>
      exact Or.inl ⟨v, rfl, by unfold parse_whatsapp_message; rw [hc]⟩
    | error e =>
      exact Or.inr ⟨e, rfl, by unfold parse_whatsapp_message; rw [hc]⟩
  · intro u
    cases hc : parse_telegram_message_checked u with
    | ok v =>
      exact Or.inl ⟨v, rfl, by unfold parse_telegram_message; rw [hc]⟩
    | error e =>
      exact Or.inr ⟨e, rfl, by unfold parse_telegram_message; rw [hc]⟩

/-! ## Webhook signature verification -/

theorem pyStarts_append (a t : List Char) : pyStarts a (a ++ t) = true :=
  (pyStarts_iff a (a ++ t)).mpr ⟨t, rfl⟩

theorem hexChar_inj : ∀ a < 16, ∀ b < 16, hexChar a = hexChar b → a = b := by decide

theorem hexdigest_cons (b : Nat) (t : List Nat) :
    hexdigest (b :: t) = hexChar (b / 16) :: hexChar (b % 16) :: hexdigest t := rfl

theorem hexdigest_inj : ∀ l1 l2 : List Nat, (∀ x ∈ l1, x < 256) → (∀ x ∈ l2, x < 256) →
    hexdigest l1 = hexdigest l2 → l1 = l2 := by
  intro l1
  induction l1 with
  | nil =>
    intro l2 _ h2 he
    cases l2 with
    | nil => rfl
    | cons b t => exact absurd he (by simp [hexdigest, hexdigest_cons])
  | cons a t ih =>
    intro l2 h1 h2 he
    cases l2 with
    | nil => exact absurd he (by simp [hexdigest, hexdigest_cons])
    | cons b t2 =>
      rw [hexdigest_cons, hexdigest_cons] at he
      injection he with hd he2
      injection he2 with hd2 he3
      have ha := h1 a (by simp)
      have hb := h2 b (by simp)
      have hdiv : a / 16 = b / 16 :=
        hexChar_inj (a / 16) (by omega) (b / 16) (by omega) hd
      have hmod : a % 16 = b % 16 :=
        hexChar_inj (a % 16) (by omega) (b % 16) (by omega) hd2
      have hab : a = b := by omega
      have ht : t = t2 :=
        ih t2 (fun x hx => h1 x (List.mem_cons_of_mem a hx))
          (fun x hx => h2 x (List.mem_cons_of_mem b hx)) he3
      rw [hab, ht]

theorem word2bytes_lt (w : Nat) : ∀ x ∈ word2bytes w, x < 256 := by
  intro x hx
  simp only [word2bytes, List.mem_cons, List.not_mem_nil, or_false] at hx
  rcases hx with h | h | h | h <;> omega

theorem sha256_length (m : List Nat) : (sha256 m).length = 32 := by
  simp [sha256, word2bytes]

theorem sha256_lt (m : List Nat) : ∀ x ∈ sha256 m, x < 256 := by
  intro x hx
  simp only [sha256, List.mem_append] at hx
  rcases hx with ((((((h | h) | h) | h) | h) | h) | h) | h <;> exact word2bytes_lt _ x h

theorem hmac_sha256_length (k m : List Nat) : (hmac_sha256 k m).length = 32 :=
  sha256_length _

theorem hmac_sha256_lt (k m : List Nat) : ∀ x ∈ hmac_sha256 k m, x < 256 :=
  sha256_lt _

/-- HMAC-SHA256 maps infinitely many bodies into finitely many 32-byte
digests, so under every secret two distinct bodies share a digest. -/
theorem hmac_sha256_collision (secret : List Nat) :
    ∃ b b2 : List Nat, b ≠ b2 ∧ hmac_sha256 secret b = hmac_sha256 secret b2 := by
  have hbound : ∀ (n : Nat) (i : Fin 32),
      (hmac_sha256 secret (List.replicate n 0)).getD (i : Nat) 0 < 256 := by
    intro n i
    have hlen := hmac_sha256_length secret (List.replicate n 0)
    have hi : (i : Nat) < (hmac_sha256 secret (List.replicate n 0)).length := by
      rw [hlen]; exact i.2
    rw [List.getD_eq_getElem?_getD, List.getElem?_eq_getElem hi]
    exact hmac_sha256_lt secret _ _ (List.getElem_mem hi)
  obtain ⟨x, y, hxy, hF⟩ := Finite.exists_ne_map_eq_of_infinite
    (fun n : Nat => fun i : Fin 32 =>
      (⟨(hmac_sha256 secret (List.replicate n 0)).getD (i : Nat) 0, hbound n i⟩ : Fin 256))
  refine ⟨List.replicate x 0, List.replicate y 0, ?_, ?_⟩
  · intro hrep
    exact hxy (by simpa using congrArg List.length hrep)
  · have hx32 := hmac_sha256_length secret (List.replicate x 0)
    have hy32 := hmac_sha256_length secret (List.replicate y 0)
    apply List.ext_getElem (by rw [hx32, hy32])
    intro i hix hiy
    have hfi := congrFun hF ⟨i, by rw [← hx32]; exact hix⟩
    have hv := congrArg (fun z : Fin 256 => (z : Nat)) hfi
    simp only at hv
    rw [List.getD_eq_getElem?_getD, List.getElem?_eq_getElem hix,
      List.getD_eq_getElem?_getD, List.getElem?_eq_getElem hiy] at hv
    simpa using hv

/-- A well-formed header for the digest of a body is accepted whenever a
secret is configured. -/
theorem verify_accepts (secret body : List Nat) (hs : secret ≠ []) :
    verify_whatsapp_webhook secret body (some (waSignature secret body)) = true := by
  unfold verify_whatsapp_webhook waSignature
  rw [if_neg (by simp [hs])]
  simp [pyStarts_append]

/-- **C8 counterexample.**  It is not true that every altered body is
rejected: HMAC-SHA256 is not injective (pigeonhole over 32-byte digests),
so for some two distinct bodies the signature of one verifies against the
other, under the one-byte secret `"k"`. -/
theorem verify_not_reject_all_altered :
    ¬ (∀ secret body body2 : List Nat, secret ≠ [] → body2 ≠ body →
        verify_whatsapp_webhook secret body2 (some (waSignature secret body)) = false) := by
  intro hall
  obtain ⟨b, b2, hne, heq⟩ := hmac_sha256_collision [107]
  have hacc : verify_whatsapp_webhook [107] b2 (some (waSignature [107] b)) = true := by
    unfold verify_whatsapp_webhook waSignature
    rw [if_neg (by simp)]
    simp [pyStarts_append, heq]
  have hrej := hall [107] b b2 (by simp) (fun h => hne h.symm)
  rw [hrej] at hacc
  exact Bool.noConfusion hacc

/-- **C8 (amended).**  With a configured secret, verification accepts the
well-formed signature of the body; it returns `false` for a body whose
HMAC digest differs from the signed one (so any altered body is rejected
exactly when its digest changes — rejection of every altered body is
impossible, see the counterexample); and with no secret configured it
returns `true` for every body and every (or absent) header. -/
theorem webhook_signature_verification :
    (∀ secret body : List Nat, secret ≠ [] →
      verify_whatsapp_webhook secret body (some (waSignature secret body)) = true) ∧
    (∀ secret body body2 : List Nat, secret ≠ [] →
      hmac_sha256 secret body2 ≠ hmac_sha256 secret body →
      verify_whatsapp_webhook secret body2 (some (waSignature secret body)) = false) ∧
    (∀ (body : List Nat) (header : Option (List Char)),
      verify_whatsapp_webhook [] body header = true) := by
  refine ⟨verify_accepts, ?_, fun body header => rfl⟩
  intro secret body body2 hs hm
  unfold verify_whatsapp_webhook waSignature
  rw [if_neg (by simp [hs])]
  simp only [Option.getD_some, pyStarts_append, Bool.not_true, Bool.false_eq_true,
    if_false]
  rw [beq_eq_false_iff_ne]
  intro hbeq
  exact absurd (hexdigest_inj _ _ (hmac_sha256_lt secret body2) (hmac_sha256_lt secret body)
    (List.append_cancel_left hbeq)) hm

set_option maxRecDepth 100000 in
/-- Witness for C8 (amended): concrete one-byte secret and bodies; the
digest inequality of the second part is evaluated by the kernel. -/
theorem webhook_signature_verification_witness :
    verify_whatsapp_webhook [107] [97] (some (waSignature [107] [97])) = true ∧
    verify_whatsapp_webhook [107] [98] (some (waSignature [107] [97])) = false ∧
    verify_whatsapp_webhook [] [97] none = true :=
  ⟨webhook_signature_verification.1 [107] [97] (by simp),
   webhook_signature_verification.2.1 [107] [97] [98] (by simp) (by decide),
   webhook_signature_verification.2.2 [97] none⟩

end RecipeBot
